import Mathlib

/-!
Shallow embedding of `src/server.js` (bautibadino/wp-api), the Render variant of the
WhatsApp HTTP API server.  Timestamps are modelled as epoch milliseconds (`Nat`);
`new Date(x).toISOString()` is injective in the millisecond value, so an instant is
represented by that value.  JSON response bodies are modelled by the `Json` type
below, built field by field from the object literals in the source.  The mutable
module-level variables (`isReady`, `qrCodeData`, `lastQrTime`,
`initializationInProgress`, `client`) become the fields of `ServerState`; the
constructed-but-not-destroyed client handles are tracked in `liveClients`, the
scheduled `setTimeout` relaunch timers in `pendingTimers` (fire instants, FIFO),
and `launches` counts how many times a fresh client was constructed and its
asynchronous start (`client.initialize()`) invoked.
-/

namespace WpApi

/-- JSON values, for modelling the response bodies the server builds. -/
inductive Json where
  | jstr : String → Json
  | jnum : Int → Json
  | jbool : Bool → Json
  | jnull : Json
  | jarr : List Json → Json
  | jobj : List (String × Json) → Json

/-- Field lookup in a JSON object (first binding wins, as in a JS object literal). -/
def Json.getField : Json → String → Option Json
  | .jobj fs, k => fs.lookup k
  | _, _ => none

/-- The module-level mutable state of `src/server.js` (lines 24-29), plus the
bookkeeping needed to observe client-handle liveness, scheduled relaunch timers
and client start operations. -/
structure ServerState where
  isReady : Bool
  qrCodeData : Option String
  lastQrTime : Option Nat
  initializationInProgress : Bool
  client : Option Nat
  liveClients : List Nat
  nextClientId : Nat
  pendingTimers : List Nat
  launches : Nat
deriving DecidableEq

/-- State at process start: `let client; let isReady = false; let qrCodeData = null;
let lastQrTime = null; let initializationInProgress = false;`. -/
def initialState : ServerState :=
  { isReady := false, qrCodeData := none, lastQrTime := none,
    initializationInProgress := false, client := none, liveClients := [],
    nextClientId := 0, pendingTimers := [], launches := 0 }

/-- `client.destroy()` on the current handle (server.js lines 47-54 and 480-486):
the handle stops being live; the `client` variable keeps pointing at it. -/
def destroyCurrentClient (s : ServerState) : ServerState :=
  match s.client with
  | none => s
  | some h => { s with liveClients := s.liveClients.erase h }

/-- `client = new Client({...})` followed by `client.initialize()`
(server.js lines 57-121 and 198): a fresh handle becomes the current client and
is live, and one more client start operation has been issued. -/
def createClient (s : ServerState) : ServerState :=
  { s with client := some s.nextClientId,
           liveClients := s.liveClients ++ [s.nextClientId],
           nextClientId := s.nextClientId + 1,
           launches := s.launches + 1 }

/-- `initializeWhatsApp()` (server.js lines 37-218): no-op when
`initializationInProgress` is already true; otherwise set the flag, destroy the
previous client if any, then construct and start a fresh one. -/
def initializeWhatsApp (s : ServerState) : ServerState :=
  if s.initializationInProgress then s
  else createClient (destroyCurrentClient { s with initializationInProgress := true })

/-- `client.on('qr')` handler (server.js lines 128-135). -/
def onQr (s : ServerState) (qr : String) (now : Nat) : ServerState :=
  { s with qrCodeData := some qr, lastQrTime := some now,
           initializationInProgress := false }

/-- `client.on('ready')` handler (server.js lines 137-143). -/
def onReady (s : ServerState) : ServerState :=
  { s with isReady := true, qrCodeData := none, lastQrTime := none,
           initializationInProgress := false }

/-- `client.on('auth_failure')` handler (server.js lines 149-159): clears the
ready and in-progress flags and schedules a retry 30s later. -/
def onAuthFailure (s : ServerState) (now : Nat) : ServerState :=
  { s with isReady := false, initializationInProgress := false,
           pendingTimers := s.pendingTimers ++ [now + 30000] }

/-- `client.on('disconnected')` handler (server.js lines 161-172): clears
`isReady` and `qrCodeData` but not `lastQrTime`, and schedules a reconnect 15s
later. -/
def onDisconnected (s : ServerState) (now : Nat) : ServerState :=
  { s with isReady := false, qrCodeData := none,
           initializationInProgress := false,
           pendingTimers := s.pendingTimers ++ [now + 15000] }

/-- `client.on('error')` handler (server.js lines 191-194). -/
def onClientError (s : ServerState) : ServerState :=
  { s with initializationInProgress := false }

/-- The `client.initialize().catch(...)` handler (server.js lines 198-207):
clears the in-progress flag and schedules a retry 60s later. -/
def onInitError (s : ServerState) (now : Nat) : ServerState :=
  { s with initializationInProgress := false,
           pendingTimers := s.pendingTimers ++ [now + 60000] }

/-- `qrExpired` as computed at the top of `/api/status` and `/api/qr`
(server.js lines 267 and 285): `lastQrTime && (new Date() - lastQrTime) > 120000`. -/
def qrExpired (s : ServerState) (now : Nat) : Bool :=
  match s.lastQrTime with
  | none => false
  | some t => 120000 < now - t

/-- The expiry instant reported by `/api/qr`: `new Date(lastQrTime.getTime() + 120000)`
(server.js line 298).  When `lastQrTime` is null the source would throw; that state
cannot be reached with a QR present (see `qr_time_invariant`), and we model the
value as 0 there. -/
def expiryInstant : Option Nat → Int
  | some t => (t : Int) + 120000
  | none => 0

/-- `timeLeft` reported by `/api/qr` (server.js line 299):
`Math.max(0, 120 - Math.floor((new Date() - lastQrTime) / 1000))`. -/
def qrTimeLeft (lastQrTime : Option Nat) (now : Nat) : Int :=
  match lastQrTime with
  | some t => max 0 (120 - ((now - t : Nat) / 1000 : Nat))
  | none => 0

/-- The success body of `/api/qr` (server.js lines 288-300). -/
def qrOkBody (qr : String) (lastQrTime : Option Nat) (now : Nat) : Json :=
  .jobj [("success", .jbool true), ("qrCode", .jstr qr),
         ("message", .jstr "📱 Escanea este código QR con WhatsApp"),
         ("instructions", .jarr
           [.jstr "1. Abre WhatsApp en tu teléfono",
            .jstr "2. Ve a Configuración > Dispositivos vinculados",
            .jstr "3. Toca \"Vincular un dispositivo\"",
            .jstr "4. Escanea este código QR"]),
         ("expiresAt", .jnum (expiryInstant lastQrTime)),
         ("timeLeft", .jnum (qrTimeLeft lastQrTime now))]

/-- The already-connected body of `/api/qr` (server.js lines 301-306). -/
def qrReadyBody : Json :=
  .jobj [("success", .jbool true),
         ("message", .jstr "✅ WhatsApp ya está conectado y funcionando"),
         ("status", .jstr "ready")]

/-- The waiting/expired branch of `/api/qr` (server.js lines 307-325): builds the
failure body and, when `(qrExpired || !initializationInProgress) && !isReady`,
clears the pairing fields and schedules one relaunch timer 3s out. -/
def qrWaitingBranch (s : ServerState) (now : Nat) : (Nat × Json) × ServerState :=
  ((200, .jobj [("success", .jbool false),
      ("message", .jstr (if qrExpired s now then
          "⏰ QR Code expirado, generando uno nuevo..."
        else "⏳ Generando QR Code, espera unos segundos...")),
      ("status", .jstr "waiting"),
      ("initializing", .jbool s.initializationInProgress),
      ("tip", .jstr "Recarga esta página en 10-30 segundos")]),
   if (qrExpired s now || !s.initializationInProgress) && !s.isReady then
     { s with qrCodeData := none, lastQrTime := none,
              pendingTimers := s.pendingTimers ++ [now + 3000] }
   else s)

/-- The else-chain of `/api/qr` after the first condition failed
(server.js lines 301-326). -/
def qrElseBranch (s : ServerState) (now : Nat) : (Nat × Json) × ServerState :=
  if s.isReady then ((200, qrReadyBody), s) else qrWaitingBranch s now

/-- `GET /api/qr` (server.js lines 284-327), returning (status, body) and the
state after the handler ran. -/
def qrRoute (s : ServerState) (now : Nat) : (Nat × Json) × ServerState :=
  match s.qrCodeData with
  | some qr =>
    if qrExpired s now then qrElseBranch s now
    else ((200, qrOkBody qr s.lastQrTime now), s)
  | none => qrElseBranch s now

/-- Does `p` occur as a contiguous sublist of the first list?  (Structural, so
it reduces in the kernel.) -/
def hasSublist : List Char → List Char → Bool
  | [], p => p.isEmpty
  | c :: rest, p => p.isPrefixOf (c :: rest) || hasSublist rest p

/-- JavaScript `a.includes(b)` for strings: substring containment. -/
def jsIncludes (s pat : String) : Bool := hasSublist s.toList pat.toList

/-- JavaScript falsiness of an optional string request field (`!number`):
missing (`undefined`) and the empty string are falsy. -/
def jsFalsyStr : Option String → Bool
  | none => true
  | some s => s == ""

/-- `number.includes('@c.us') ? number : number + '@c.us'` (server.js line 355). -/
def formatChatId (number : String) : String :=
  if jsIncludes number "@c.us" then number else number ++ "@c.us"

/-- Behaviour of the underlying `client.sendMessage` promise: it settles after
`delay` milliseconds, either resolving with a message id or rejecting with an
error message. -/
inductive SendOutcome where
  | ok : Nat → String → SendOutcome
  | err : Nat → String → SendOutcome
deriving DecidableEq

/-- The settle time of the underlying send promise. -/
def SendOutcome.delay : SendOutcome → Nat
  | .ok d _ => d
  | .err d _ => d

/-- The `Promise.race` of the client send against the 30s rejection timer
(server.js lines 360-365): whichever settles first wins; at 30000ms the timer
rejects with `Error('Timeout sending message')`. -/
def raceOutcome : SendOutcome → Except String String
  | .ok d i => if d < 30000 then .ok i else .error "Timeout sending message"
  | .err d e => if d < 30000 then .error e else .error "Timeout sending message"

/-- The `errorMessage` selection in the catch branch of `/api/send-message`
(server.js lines 381-388). -/
def sendErrorMessage (raw : String) : String :=
  if jsIncludes raw "Chat not found" then "❌ Número no válido o no tiene WhatsApp"
  else if jsIncludes raw "Rate limit" then "⏰ Demasiados mensajes, espera un momento"
  else if jsIncludes raw "Timeout" then "⏰ Timeout enviando mensaje, intenta de nuevo"
  else "Error enviando mensaje"

/-- The observable result of one `/api/send-message` request: HTTP status, body,
the time in milliseconds until the handler responded (counted from issuing the
underlying send), and the server state afterwards. -/
structure SendResult where
  status : Nat
  body : Json
  respTimeMs : Nat
  state : ServerState

/-- `POST /api/send-message` (server.js lines 330-397).  `number` and `message`
are the (possibly missing) request body fields; `outcome` is how the underlying
client send would behave. -/
def sendMessageRoute (s : ServerState) (number message : Option String)
    (outcome : SendOutcome) (now : Nat) : SendResult :=
  if !s.isReady then
    { status := 503,
      body := .jobj [("success", .jbool false),
        ("message", .jstr "❌ WhatsApp no está conectado"),
        ("tip", .jstr "Ve a /api/qr para conectar WhatsApp primero"),
        ("status", .jstr "not_ready")],
      respTimeMs := 0, state := s }
  else if jsFalsyStr number || jsFalsyStr message then
    { status := 400,
      body := .jobj [("success", .jbool false),
        ("message", .jstr "📝 Número y mensaje son requeridos"),
        ("example", .jobj [("number", .jstr "5491234567890"),
                           ("message", .jstr "¡Hola desde Render!")])],
      respTimeMs := 0, state := s }
  else
    match raceOutcome outcome with
    | .ok msgId =>
      { status := 200,
        body := .jobj [("success", .jbool true),
          ("message", .jstr "✅ Mensaje enviado correctamente"),
          ("to", .jstr (number.getD "")),
          ("messageId", .jstr msgId),
          ("timestamp", .jnum now),
          ("platform", .jstr "render")],
        respTimeMs := outcome.delay, state := s }
    | .error e =>
      { status := 500,
        body := .jobj [("success", .jbool false),
          ("message", .jstr (sendErrorMessage e)),
          ("error", .jstr e),
          ("tip", .jstr "Verifica que el número sea correcto y tenga WhatsApp")],
        respTimeMs := min outcome.delay 30000, state := s }

/-- `GET /api/number-info/:number` (server.js lines 400-430).  `lookup` is the
result of `client.getNumberId`: an exception, or the (possibly absent) details. -/
def numberInfoRoute (s : ServerState) (number : String)
    (lookup : Except String (Option Json)) : Nat × Json :=
  if !s.isReady then
    (503, .jobj [("success", .jbool false),
      ("message", .jstr "❌ WhatsApp no está conectado")])
  else
    match lookup with
    | .ok d =>
      (200, .jobj [("success", .jbool true),
        ("exists", .jbool d.isSome),
        ("numberInfo", d.getD .jnull),
        ("checked", .jstr number),
        ("message", .jstr (if d.isSome then "✅ Número válido"
                           else "❌ Número no tiene WhatsApp"))])
    | .error e =>
      (500, .jobj [("success", .jbool false),
        ("message", .jstr "Error verificando número"),
        ("error", .jstr e)])

/-- The `lastMessage` part of a chat as `client.getChats()` returns it. -/
structure LastMessage where
  body : Option String
  timestamp : Int
  fromId : String
deriving DecidableEq

/-- A chat as `client.getChats()` returns it. -/
structure Chat where
  id : String
  name : String
  isGroup : Bool
  unreadCount : Nat
  lastMessage : Option LastMessage
deriving DecidableEq

/-- `chat.lastMessage.body?.substring(0, 100) + (chat.lastMessage.body?.length > 100 ? '...' : '')`
(server.js line 451); with `body` undefined, JavaScript produces the string
"undefined".  Lengths are counted in characters. -/
def truncateBody : Option String → String
  | some b => String.mk (b.toList.take 100) ++ (if 100 < b.length then "..." else "")
  | none => "undefined"

/-- The JSON for a chat's `lastMessage` field (server.js lines 450-454). -/
def lastMessageJson : Option LastMessage → Json
  | some m => .jobj [("body", .jstr (truncateBody m.body)),
                     ("timestamp", .jnum m.timestamp),
                     ("from", .jstr m.fromId)]
  | none => .jnull

/-- The per-chat summary object built by `/api/chats` (server.js lines 445-455). -/
def chatSummary (c : Chat) : Json :=
  .jobj [("id", .jstr c.id), ("name", .jstr c.name),
         ("isGroup", .jbool c.isGroup),
         ("unreadCount", .jnum c.unreadCount),
         ("lastMessage", lastMessageJson c.lastMessage)]

/-- The effective end index of JavaScript `Array.prototype.slice(0, e)` on an
array of length `len`: `NaN` (modelled `none`) becomes 0, a negative index counts
from the end (clamped at 0), a non-negative one is clamped at `len`. -/
def jsSliceEnd (len : Nat) : Option Int → Nat
  | none => 0
  | some i => if i < 0 then ((len : Int) + i).toNat else min i.toNat len

/-- JavaScript `l.slice(0, e)`. -/
def jsSliceTo (l : List α) (e : Option Int) : List α := l.take (jsSliceEnd l.length e)

/-- The value `parseInt(limit)` sees: when the `limit` query parameter is absent,
the destructuring default 20 applies (`const { limit = 20 } = req.query`); when
present, its `parseInt` result (`none` models `NaN`). -/
def effectiveLimit : Option (Option Int) → Option Int
  | none => some 20
  | some p => p

/-- `chats.slice(0, parseInt(limit)).map(...)` (server.js line 445):
the list of chat summaries `/api/chats` returns. -/
def chatList (limitParam : Option (Option Int)) (cs : List Chat) : List Json :=
  (jsSliceTo cs (effectiveLimit limitParam)).map chatSummary

/-- `GET /api/chats` (server.js lines 433-473).  `limitParam` is the parsed
`limit` query parameter (see `effectiveLimit`); `chatsResult` is the outcome of
`client.getChats()`. -/
def chatsRoute (s : ServerState) (limitParam : Option (Option Int))
    (chatsResult : Except String (List Chat)) : Nat × Json :=
  if !s.isReady then
    (503, .jobj [("success", .jbool false),
      ("message", .jstr "❌ WhatsApp no está conectado")])
  else
    match chatsResult with
    | .ok cs =>
      (200, .jobj [("success", .jbool true),
        ("chats", .jarr (chatList limitParam cs)),
        ("total", .jnum cs.length),
        ("showing", .jnum (chatList limitParam cs).length),
        ("platform", .jstr "render")])
    | .error e =>
      (500, .jobj [("success", .jbool false),
        ("message", .jstr "Error obteniendo chats"),
        ("error", .jstr e)])

/-- `POST /api/restart` (server.js lines 476-511): destroy the current client
(failures are swallowed by the inner try/catch, lines 481-485, so the outer catch
is unreachable), clear all four flags, schedule `initializeWhatsApp` 5s out, and
answer 200. -/
def restartRoute (s : ServerState) (now : Nat) : (Nat × Json) × ServerState :=
  ((200, .jobj [("success", .jbool true),
      ("message", .jstr "🔄 Cliente reiniciado"),
      ("timestamp", .jnum now)]),
   { destroyCurrentClient s with
       isReady := false, qrCodeData := none, lastQrTime := none,
       initializationInProgress := false,
       pendingTimers := s.pendingTimers ++ [now + 5000] })

/-- `GET /health` (server.js lines 223-233). -/
def healthRoute (s : ServerState) (now uptime : Nat) (memory : Json) : Nat × Json :=
  (200, .jobj [("status", .jstr "healthy"),
    ("service", .jstr "whatsapp-api-render"),
    ("timestamp", .jnum now),
    ("uptime", .jnum uptime),
    ("ready", .jbool s.isReady),
    ("memory", memory),
    ("version", .jstr "1.0.1")])

/-- `GET /` (server.js lines 236-263). -/
def rootRoute (s : ServerState) (uptime : Nat) : Nat × Json :=
  (200, .jobj [("message", .jstr "🚀 WhatsApp API funcionando en Render!"),
    ("status", .jstr (if s.isReady then "ready"
      else if s.qrCodeData.isSome then "waiting_for_qr" else "initializing")),
    ("version", .jstr "1.0.1"),
    ("platform", .jstr "render-free"),
    ("uptime", .jnum uptime),
    ("endpoints", .jobj [("📊 Estado", .jstr "GET /api/status"),
      ("📱 QR Code", .jstr "GET /api/qr"),
      ("💬 Enviar mensaje", .jstr "POST /api/send-message"),
      ("🔍 Verificar número", .jstr "GET /api/number-info/:number"),
      ("💬 Listar chats", .jstr "GET /api/chats"),
      ("🔄 Reiniciar", .jstr "POST /api/restart"),
      ("❤️ Health", .jstr "GET /health")]),
    ("usage_example", .jobj [("send_message", .jobj
      [("method", .jstr "POST"), ("url", .jstr "/api/send-message"),
       ("body", .jobj [("number", .jstr "5491234567890"),
                       ("message", .jstr "Hola desde Render!")])])])])

/-- `GET /api/status` (server.js lines 266-281). -/
def statusRoute (s : ServerState) (now uptime : Nat) (memory : Json) : Nat × Json :=
  (200, .jobj [("success", .jbool true),
    ("status", .jstr (if s.isReady then "ready"
      else if s.qrCodeData.isSome && !qrExpired s now then "waiting_for_qr"
      else "initializing")),
    ("ready", .jbool s.isReady),
    ("hasQR", .jbool (s.qrCodeData.isSome && !qrExpired s now)),
    ("initializing", .jbool s.initializationInProgress),
    ("platform", .jstr "render-free"),
    ("timestamp", .jnum now),
    ("lastQrTime", match s.lastQrTime with | some t => .jnum t | none => .jnull),
    ("uptime", .jnum uptime),
    ("memory", memory)])

/-- The 404 handler (server.js lines 514-529). -/
def notFoundRoute : Nat × Json :=
  (404, .jobj [("success", .jbool false),
    ("message", .jstr "🔍 Endpoint no encontrado"),
    ("availableEndpoints", .jarr [.jstr "GET /", .jstr "GET /api/status",
      .jstr "GET /api/qr", .jstr "POST /api/send-message",
      .jstr "GET /api/number-info/:number", .jstr "GET /api/chats",
      .jstr "POST /api/restart", .jstr "GET /health"])])

/-- The state-changing occurrences the server reacts to: a direct
`initializeWhatsApp()` call, the client events, the firing of the next pending
relaunch timer, and the state-mutating HTTP requests. -/
inductive Act where
  | callInit : Act
  | evQr : String → Nat → Act
  | evReady : Act
  | evAuthFailure : Nat → Act
  | evDisconnected : Nat → Act
  | evClientError : Act
  | evInitError : Nat → Act
  | fireTimer : Act
  | getQr : Nat → Act
  | postRestart : Nat → Act
  | postSend : Option String → Option String → SendOutcome → Nat → Act
deriving DecidableEq

/-- A client event (as opposed to a request, a timer firing or a direct call). -/
def isClientEvent : Act → Bool
  | .evQr _ _ | .evReady | .evAuthFailure _ | .evDisconnected _
  | .evClientError | .evInitError _ => true
  | _ => false

/-- A pending relaunch timer fires (FIFO): the scheduled callback runs
`initializeWhatsApp` (the `/api/qr` variant first re-checks
`initializationInProgress`, which `initializeWhatsApp` itself re-checks anyway,
so all timer kinds behave identically). -/
def fireNextTimer (s : ServerState) : ServerState :=
  match s.pendingTimers with
  | [] => s
  | _ :: rest => initializeWhatsApp { s with pendingTimers := rest }

/-- One step of the server: the state after the given occurrence. -/
def step (s : ServerState) : Act → ServerState
  | .callInit => initializeWhatsApp s
  | .evQr qr now => onQr s qr now
  | .evReady => onReady s
  | .evAuthFailure now => onAuthFailure s now
  | .evDisconnected now => onDisconnected s now
  | .evClientError => onClientError s
  | .evInitError now => onInitError s now
  | .fireTimer => fireNextTimer s
  | .getQr now => (qrRoute s now).2
  | .postRestart now => (restartRoute s now).2
  | .postSend n m o now => (sendMessageRoute s n m o now).state

/-- Run a sequence of occurrences from a state. -/
def run (s : ServerState) (acts : List Act) : ServerState := acts.foldl step s

/-- The states the server can reach from process start. -/
inductive Reachable : ServerState → Prop where
  | init : Reachable initialState
  | next : ∀ s a, Reachable s → Reachable (step s a)

/-! ### Helper lemmas -/

/-- Invariant shape of the live-handle bookkeeping: the live handles are at most
the current `client` handle. -/
def goodClients (s : ServerState) : Prop :=
  s.liveClients = [] ∨ ∃ h, s.client = some h ∧ s.liveClients = [h]

/-- The literal content of claim C7: for any reachable start state, two
`/api/restart` requests within one second of each other, and any client events
`mid` delivered between the firings of the two scheduled relaunch timers, the
two timer firings together produce at most one client launch. -/
def claim_C7_statement : Prop :=
  ∀ (s : ServerState) (t1 t2 : Nat) (mid : List Act), Reachable s →
    t2 ≤ t1 + 1000 →
    (∀ a ∈ mid, isClientEvent a = true) →
    let s2 := run s [Act.postRestart t1, Act.postRestart t2]
    let s3 := step s2 Act.fireTimer
    let s4 := run s3 mid
    let s5 := step s4 Act.fireTimer
    (s3.launches - s2.launches) + (s5.launches - s4.launches) ≤ 1

/-- The number of chats the response is expected to show, stated in the spec's
terms: `min(limit, total)` for a non-negative limit, JavaScript
negative-index slicing for a negative one, 20 when the parameter is absent,
none when `parseInt` gave `NaN`. -/
def expectedChatCount (limitParam : Option (Option Int)) (total : Nat) : Nat :=
  match limitParam with
  | none => min 20 total
  | some none => 0
  | some (some i) => if 0 ≤ i then min i.toNat total else total - (-i).toNat

/-- Ten concrete chats, for exercising `/api/chats`. -/
def tenChats : List Chat :=
  (List.range 10).map (fun i =>
    { id := "c", name := "chat", isGroup := false, unreadCount := i, lastMessage := none })

lemma destroyCurrentClient_eq (s : ServerState) :
    destroyCurrentClient s = { s with liveClients := match s.client with
                                        | none => s.liveClients
                                        | some h => s.liveClients.erase h } := by
  rcases s with ⟨r, q, t, f, c, lc, n, p, la⟩
  cases c <;> rfl

lemma initializeWhatsApp_of_flag {s : ServerState}
    (h : s.initializationInProgress = true) : initializeWhatsApp s = s := by
  simp [initializeWhatsApp, h]

lemma initializeWhatsApp_qr (s : ServerState) :
    (initializeWhatsApp s).qrCodeData = s.qrCodeData ∧
    (initializeWhatsApp s).lastQrTime = s.lastQrTime := by
  unfold initializeWhatsApp
  split
  · exact ⟨rfl, rfl⟩
  · rw [destroyCurrentClient_eq]; exact ⟨rfl, rfl⟩

lemma initializeWhatsApp_flag_true {s : ServerState}
    (h : s.initializationInProgress = false) :
    (initializeWhatsApp s).initializationInProgress = true := by
  unfold initializeWhatsApp
  rw [h]
  simp only [Bool.false_eq_true, if_false]
  rw [destroyCurrentClient_eq]
  rfl

lemma initializeWhatsApp_launches {s : ServerState}
    (h : s.initializationInProgress = false) :
    (initializeWhatsApp s).launches = s.launches + 1 := by
  unfold initializeWhatsApp
  rw [h]
  simp only [Bool.false_eq_true, if_false]
  rw [destroyCurrentClient_eq]
  rfl

lemma fireNextTimer_qr (s : ServerState) :
    (fireNextTimer s).qrCodeData = s.qrCodeData ∧
    (fireNextTimer s).lastQrTime = s.lastQrTime := by
  cases htm : s.pendingTimers with
  | nil => simp [fireNextTimer, htm]
  | cons t rest =>
    simp only [fireNextTimer, htm]
    exact initializeWhatsApp_qr _

lemma sendMessageRoute_state (s : ServerState) (n m : Option String)
    (o : SendOutcome) (now : Nat) : (sendMessageRoute s n m o now).state = s := by
  unfold sendMessageRoute
  by_cases h1 : (!s.isReady) = true
  · rw [if_pos h1]
  · rw [if_neg h1]
    by_cases h2 : (jsFalsyStr n || jsFalsyStr m) = true
    · rw [if_pos h2]
    · rw [if_neg h2]
      cases raceOutcome o <;> rfl

/-- The state `qrWaitingBranch` leaves behind: either untouched, or with both
pairing fields cleared and one extra relaunch timer. -/
lemma qrWaitingBranch_state (s : ServerState) (now : Nat) :
    (qrWaitingBranch s now).2 = s ∨
    (qrWaitingBranch s now).2 = { s with qrCodeData := none, lastQrTime := none,
                                          pendingTimers := s.pendingTimers ++ [now + 3000] } := by
  unfold qrWaitingBranch
  by_cases h : ((qrExpired s now || !s.initializationInProgress) && !s.isReady) = true
  · right; rw [if_pos h]
  · left; rw [if_neg h]

lemma qrElseBranch_state (s : ServerState) (now : Nat) :
    (qrElseBranch s now).2 = s ∨
    (qrElseBranch s now).2 = { s with qrCodeData := none, lastQrTime := none,
                                       pendingTimers := s.pendingTimers ++ [now + 3000] } := by
  by_cases h : s.isReady = true
  · left; simp [qrElseBranch, h]
  · have he : qrElseBranch s now = qrWaitingBranch s now := by
      simp [qrElseBranch, h]
    rw [he]
    exact qrWaitingBranch_state s now

lemma qrRoute_state (s : ServerState) (now : Nat) :
    (qrRoute s now).2 = s ∨
    (qrRoute s now).2 = { s with qrCodeData := none, lastQrTime := none,
                                  pendingTimers := s.pendingTimers ++ [now + 3000] } := by
  cases hq : s.qrCodeData with
  | none =>
    have he : qrRoute s now = qrElseBranch s now := by unfold qrRoute; rw [hq]
    rw [he]; exact qrElseBranch_state s now
  | some qr =>
    by_cases h : qrExpired s now = true
    · have he : qrRoute s now = qrElseBranch s now := by
        unfold qrRoute; rw [hq]; simp [h]
      rw [he]; exact qrElseBranch_state s now
    · have he : qrRoute s now = ((200, qrOkBody qr s.lastQrTime now), s) := by
        unfold qrRoute; rw [hq]; simp [h]
      rw [he]; exact .inl rfl

/-- Invariant: a QR code is never present without its issue time (`qrCodeData`
non-null implies `lastQrTime` non-null).  The converse is false: the
disconnected handler clears only `qrCodeData`. -/
lemma qr_time_invariant : ∀ {s : ServerState}, Reachable s →
    s.qrCodeData.isSome = true → s.lastQrTime.isSome = true := by
  intro s h
  induction h with
  | init => intro h; simp [initialState] at h
  | next s a _ ih =>
    cases a with
    | callInit =>
      intro h
      simp only [step] at h ⊢
      rw [(initializeWhatsApp_qr s).1] at h
      rw [(initializeWhatsApp_qr s).2]
      exact ih h
    | evQr qr now => intro _; rfl
    | evReady => intro h; simp [step, onReady] at h
    | evAuthFailure now => intro h; exact ih h
    | evDisconnected now => intro h; simp [step, onDisconnected] at h
    | evClientError => intro h; exact ih h
    | evInitError now => intro h; exact ih h
    | fireTimer =>
      intro h
      simp only [step] at h ⊢
      rw [(fireNextTimer_qr s).1] at h
      rw [(fireNextTimer_qr s).2]
      exact ih h
    | getQr now =>
      intro h
      simp only [step] at h ⊢
      rcases qrRoute_state s now with heq | heq <;> rw [heq] at h ⊢
      · exact ih h
      · simp at h
    | postRestart now =>
      intro h
      simp only [step, restartRoute, destroyCurrentClient_eq] at h
      simp at h
    | postSend n m o now =>
      intro h
      simp only [step, sendMessageRoute_state] at h ⊢
      exact ih h

lemma goodClients_of_same {s s' : ServerState} (hc : s'.client = s.client)
    (hl : s'.liveClients = s.liveClients) (hg : goodClients s) : goodClients s' := by
  rcases hg with h0 | ⟨h, h1, h2⟩
  · exact .inl (hl.trans h0)
  · exact .inr ⟨h, hc.trans h1, hl.trans h2⟩

lemma goodClients_initialize {s : ServerState} (hg : goodClients s) :
    goodClients (initializeWhatsApp s) := by
  unfold initializeWhatsApp
  split
  · exact hg
  · rw [destroyCurrentClient_eq]
    right
    refine ⟨s.nextClientId, rfl, ?_⟩
    show (match s.client with
      | none => s.liveClients
      | some h => s.liveClients.erase h) ++ [s.nextClientId] = [s.nextClientId]
    rcases hg with h0 | ⟨h, hc, hl⟩
    · cases hcl : s.client <;> simp [h0]
    · simp [hc, hl]

lemma destroyed_liveClients {s : ServerState} (hg : goodClients s) :
    (destroyCurrentClient s).liveClients = [] ∨
    (destroyCurrentClient s).liveClients = s.liveClients := by
  rw [destroyCurrentClient_eq]
  rcases hg with h0 | ⟨h, hc, hl⟩
  · cases hcl : s.client <;> simp [h0]
  · simp [hc, hl]

lemma restartRoute_liveClients {s : ServerState} (hg : goodClients s) (now : Nat) :
    (restartRoute s now).2.liveClients = [] := by
  simp only [restartRoute, destroyCurrentClient_eq]
  show (match s.client with
    | none => s.liveClients
    | some h => s.liveClients.erase h) = []
  rcases hg with h0 | ⟨h, hc, hl⟩
  · cases hcl : s.client <;> simp [h0]
  · simp [hc, hl]

lemma goodClients_fireNextTimer {s : ServerState} (hg : goodClients s) :
    goodClients (fireNextTimer s) := by
  cases htm : s.pendingTimers with
  | nil => simp only [fireNextTimer, htm]; exact hg
  | cons t rest =>
    simp only [fireNextTimer, htm]
    exact goodClients_initialize (goodClients_of_same rfl rfl hg)

lemma goodClients_invariant : ∀ {s : ServerState}, Reachable s → goodClients s := by
  intro s h
  induction h with
  | init => exact .inl rfl
  | next s a _ ih =>
    cases a with
    | callInit => exact goodClients_initialize ih
    | evQr qr now => exact goodClients_of_same rfl rfl ih
    | evReady => exact goodClients_of_same rfl rfl ih
    | evAuthFailure now => exact goodClients_of_same rfl rfl ih
    | evDisconnected now => exact goodClients_of_same rfl rfl ih
    | evClientError => exact goodClients_of_same rfl rfl ih
    | evInitError now => exact goodClients_of_same rfl rfl ih
    | fireTimer => exact goodClients_fireNextTimer ih
    | getQr now =>
      show goodClients (qrRoute s now).2
      rcases qrRoute_state s now with heq | heq <;> rw [heq]
      · exact ih
      · exact goodClients_of_same rfl rfl ih
    | postRestart now =>
      exact .inl (restartRoute_liveClients ih now)
    | postSend n m o now =>
      show goodClients (sendMessageRoute s n m o now).state
      rw [sendMessageRoute_state]
      exact ih

lemma liveClients_le_one {s : ServerState} (h : Reachable s) :
    s.liveClients.length ≤ 1 := by
  rcases goodClients_invariant h with h0 | ⟨c, _, hl⟩
  · simp [h0]
  · simp [hl]

lemma qrRoute_ok {s : ServerState} {qr : String} (hq : s.qrCodeData = some qr)
    {now : Nat} (hexp : qrExpired s now = false) :
    qrRoute s now = ((200, qrOkBody qr s.lastQrTime now), s) := by
  unfold qrRoute
  rw [hq]
  simp [hexp]

lemma qrWaitingBranch_mutates {s : ServerState} {now : Nat}
    (hexp : qrExpired s now = true) (hr : s.isReady = false) :
    (qrWaitingBranch s now).2 = { s with qrCodeData := none, lastQrTime := none,
                                         pendingTimers := s.pendingTimers ++ [now + 3000] } := by
  unfold qrWaitingBranch
  rw [if_pos (show ((qrExpired s now || !s.initializationInProgress) && !s.isReady) = true by
    simp [hexp, hr])]

lemma qrElseBranch_of_not_ready {s : ServerState} (now : Nat)
    (hr : s.isReady = false) : qrElseBranch s now = qrWaitingBranch s now := by
  simp [qrElseBranch, hr]

lemma qrRoute_else {s : ServerState} {now : Nat}
    (h : s.qrCodeData = none ∨ qrExpired s now = true) :
    qrRoute s now = qrElseBranch s now := by
  rcases h with hq | hexp
  · unfold qrRoute; rw [hq]
  · cases hq : s.qrCodeData with
    | none => unfold qrRoute; rw [hq]
    | some qr => unfold qrRoute; rw [hq]; simp [hexp]

lemma qrElseBranch_no_qrCode (s : ServerState) (now : Nat) :
    (qrElseBranch s now).1.2.getField "qrCode" = none := by
  unfold qrElseBranch
  by_cases h : s.isReady = true
  · rw [if_pos h]; rfl
  · rw [if_neg h]; rfl

lemma initializeWhatsApp_timers (s : ServerState) :
    (initializeWhatsApp s).pendingTimers = s.pendingTimers := by
  unfold initializeWhatsApp
  split
  · rfl
  · rw [destroyCurrentClient_eq]; rfl

lemma fireNextTimer_of_cons {s : ServerState} {c : Nat} {l : List Nat}
    (hp : s.pendingTimers = c :: l) :
    fireNextTimer s = initializeWhatsApp { s with pendingTimers := l } := by
  unfold fireNextTimer
  rw [hp]

lemma append_singleton_cons (xs : List Nat) (x : Nat) :
    ∃ c l, xs ++ [x] = c :: l := by
  cases xs with
  | nil => exact ⟨x, [], rfl⟩
  | cons a l => exact ⟨a, l ++ [x], rfl⟩

lemma send_body_envelope (s : ServerState) (n m : Option String)
    (o : SendOutcome) (now : Nat) :
    ∃ b msg, (sendMessageRoute s n m o now).body.getField "success"
        = some (Json.jbool b) ∧
      (sendMessageRoute s n m o now).body.getField "message"
        = some (Json.jstr msg) := by
  unfold sendMessageRoute
  by_cases h1 : (!s.isReady) = true
  · rw [if_pos h1]
    exact ⟨false, _, rfl, rfl⟩
  · rw [if_neg h1]
    by_cases h2 : (jsFalsyStr n || jsFalsyStr m) = true
    · rw [if_pos h2]
      exact ⟨false, _, rfl, rfl⟩
    · rw [if_neg h2]
      cases hro : raceOutcome o with
      | ok i => exact ⟨true, _, rfl, rfl⟩
      | error e => exact ⟨false, _, rfl, rfl⟩

lemma jsSliceEnd_eq (total : Nat) (p : Option (Option Int)) :
    jsSliceEnd total (effectiveLimit p) = expectedChatCount p total := by
  match p with
  | none =>
    show jsSliceEnd total (some 20) = expectedChatCount none total
    simp only [jsSliceEnd, expectedChatCount]
    rw [if_neg (by decide)]
    rfl
  | some none => rfl
  | some (some i) =>
    show jsSliceEnd total (some i) = expectedChatCount (some (some i)) total
    simp only [jsSliceEnd, expectedChatCount]
    by_cases h : i < 0
    · rw [if_pos h, if_neg (by omega)]
      omega
    · rw [if_neg h, if_pos (by omega)]

lemma expectedChatCount_le (p : Option (Option Int)) (total : Nat) :
    expectedChatCount p total ≤ total := by
  match p with
  | none => exact Nat.min_le_right _ _
  | some none => exact Nat.zero_le _
  | some (some i) =>
    show expectedChatCount (some (some i)) total ≤ total
    simp only [expectedChatCount]
    by_cases h : (0 : Int) ≤ i
    · rw [if_pos h]; exact Nat.min_le_right _ _
    · rw [if_neg h]; omega

lemma qrExpired_iff {s : ServerState} {t : Nat} (ht : s.lastQrTime = some t)
    (now : Nat) : qrExpired s now = true ↔ 120000 < now - t := by
  unfold qrExpired
  rw [ht]
  simp

lemma qrElseBranch_no_error (s : ServerState) (now : Nat) :
    (qrElseBranch s now).1.2.getField "error" = none := by
  unfold qrElseBranch
  by_cases h : s.isReady = true
  · rw [if_pos h]; rfl
  · rw [if_neg h]; rfl

lemma qrRoute_no_error (s : ServerState) (now : Nat) :
    (qrRoute s now).1.2.getField "error" = none := by
  cases hq : s.qrCodeData with
  | none =>
    rw [qrRoute_else (.inl hq)]
    exact qrElseBranch_no_error s now
  | some qr =>
    by_cases hexp : qrExpired s now = true
    · rw [qrRoute_else (.inr hexp)]
      exact qrElseBranch_no_error s now
    · have hexp0 : qrExpired s now = false := by
        cases hb : qrExpired s now
        · rfl
        · exact absurd hb hexp
      rw [qrRoute_ok hq hexp0]
      rfl

/-! ### Claims -/

/-- C1: every `initializeWhatsApp()` call issued while `initializationInProgress`
is true is a no-op (the state, including the count of issued client start
operations, is unchanged), so such a sequence of calls starts no additional
client: at most the one launch already in flight is ever in flight. -/
theorem C1_launch_idempotent (s : ServerState) (n : Nat)
    (h : s.initializationInProgress = true) :
    run s (List.replicate n Act.callInit) = s ∧
    (run s (List.replicate n Act.callInit)).launches = s.launches := by
  have key : ∀ m : Nat, run s (List.replicate m Act.callInit) = s := by
    intro m
    induction m with
    | zero => rfl
    | succ k ih =>
      rw [List.replicate_succ]
      show run (step s Act.callInit) (List.replicate k Act.callInit) = s
      rw [show step s Act.callInit = s from initializeWhatsApp_of_flag h]
      exact ih
  exact ⟨key n, by rw [key n]⟩

/-- C1 witness: at the concrete state right after a first launch (flag in
flight), three further calls change nothing. -/
theorem C1_launch_idempotent_witness :
    (step initialState Act.callInit).initializationInProgress = true ∧
    run (step initialState Act.callInit) (List.replicate 3 Act.callInit)
      = step initialState Act.callInit :=
  ⟨by decide, (C1_launch_idempotent (step initialState Act.callInit) 3 (by decide)).1⟩

/-- C3 counterexample: after a `qr` event at time 5 followed by a `disconnected`
event, the reachable state has `qrCodeData = null` but `lastQrTime = 5`: the
disconnected handler (server.js lines 161-172) clears only `qrCodeData`, so the
two pairing fields are not cleared together in every reachable state. -/
theorem C3_qr_fields_counterexample :
    Reachable (run initialState [Act.evQr "Q" 5, Act.evDisconnected 6]) ∧
    (run initialState [Act.evQr "Q" 5, Act.evDisconnected 6]).qrCodeData = none ∧
    (run initialState [Act.evQr "Q" 5, Act.evDisconnected 6]).lastQrTime = some 5 :=
  ⟨Reachable.next (step initialState (Act.evQr "Q" 5)) (Act.evDisconnected 6)
      (Reachable.next initialState (Act.evQr "Q" 5) Reachable.init),
    by decide, by decide⟩

/-- C3 amended: in every reachable state a non-null `qrCodeData` implies a
non-null `lastQrTime` (the fields are always set together); the converse
direction of the claimed iff fails, because the disconnected handler clears
`qrCodeData` while leaving `lastQrTime` behind. -/
theorem C3_qr_fields_amended (s : ServerState) (h : Reachable s) :
    s.qrCodeData.isSome = true → s.lastQrTime.isSome = true :=
  qr_time_invariant h

/-- C3 amended witness: the invariant applied right after a `qr` event. -/
theorem C3_qr_fields_amended_witness :
    (step initialState (Act.evQr "Q" 0)).lastQrTime.isSome = true :=
  C3_qr_fields_amended _ (Reachable.next _ _ Reachable.init) (by decide)

/-- C4: `POST /api/send-message` while `isReady` is false answers 503 with
`success = false` and `status = "not_ready"`, and leaves the server state
exactly as it was. -/
theorem C4_send_not_ready (s : ServerState) (number message : Option String)
    (o : SendOutcome) (now : Nat) (h : s.isReady = false) :
    (sendMessageRoute s number message o now).status = 503 ∧
    (sendMessageRoute s number message o now).body.getField "success"
      = some (Json.jbool false) ∧
    (sendMessageRoute s number message o now).body.getField "status"
      = some (Json.jstr "not_ready") ∧
    (sendMessageRoute s number message o now).state = s := by
  have hr : (!s.isReady) = true := by simp [h]
  unfold sendMessageRoute
  rw [if_pos hr]
  exact ⟨rfl, rfl, rfl, rfl⟩

/-- C4 witness at the initial (not ready) state. -/
theorem C4_send_not_ready_witness :
    (sendMessageRoute initialState (some "5491234567890") (some "hola")
        (SendOutcome.ok 10 "id") 0).status = 503 ∧
    (sendMessageRoute initialState (some "5491234567890") (some "hola")
        (SendOutcome.ok 10 "id") 0).state = initialState := by
  have h := C4_send_not_ready initialState (some "5491234567890") (some "hola")
    (SendOutcome.ok 10 "id") 0 rfl
  exact ⟨h.1, h.2.2.2⟩

/-- C2 counterexample: after a `qr` event at time 0, querying `/api/qr` at time
120000 (exactly 120s later) still returns the code, although
`now - pairingIssuedAt < 120s` is false: the source tests `> 120000`, so the
claimed "validity iff age < 120s" fails at the boundary. -/
theorem C2_qr_expiry_counterexample :
    Reachable (step initialState (Act.evQr "QRX" 0)) ∧
    (step initialState (Act.evQr "QRX" 0)).lastQrTime = some 0 ∧
    (qrRoute (step initialState (Act.evQr "QRX" 0)) 120000).1.2.getField "qrCode"
      = some (Json.jstr "QRX") ∧
    ¬ ((120000 : Nat) - 0 < 120000) :=
  ⟨Reachable.next initialState (Act.evQr "QRX" 0) Reachable.init, by decide, rfl,
    by decide⟩

/-- C2 amended: `/api/qr` never returns a code older than 120000 ms (validity is
`now - pairingIssuedAt ≤ 120s`, the boundary included), and a call made past
expiry while the session is not ready clears both pairing fields and schedules
exactly one relaunch timer. -/
theorem C2_qr_expiry_amended :
    (∀ (s : ServerState) (now : Nat) (q : String), Reachable s →
        (qrRoute s now).1.2.getField "qrCode" = some (Json.jstr q) →
        ∃ t, s.lastQrTime = some t ∧ now - t ≤ 120000) ∧
    (∀ (s : ServerState) (now t : Nat), s.lastQrTime = some t → s.isReady = false →
        120000 < now - t →
        (qrRoute s now).2.qrCodeData = none ∧ (qrRoute s now).2.lastQrTime = none ∧
        (qrRoute s now).2.pendingTimers = s.pendingTimers ++ [now + 3000]) := by
  constructor
  · intro s now q hreach hfield
    cases hq : s.qrCodeData with
    | none =>
      rw [qrRoute_else (.inl hq), qrElseBranch_no_qrCode] at hfield
      exact Option.noConfusion hfield
    | some qr =>
      by_cases hexp : qrExpired s now = true
      · rw [qrRoute_else (.inr hexp), qrElseBranch_no_qrCode] at hfield
        exact Option.noConfusion hfield
      · have hsome : s.lastQrTime.isSome = true :=
          qr_time_invariant hreach (by rw [hq]; rfl)
        obtain ⟨t, ht⟩ := Option.isSome_iff_exists.mp hsome
        refine ⟨t, ht, ?_⟩
        have hnot : ¬ (120000 < now - t) := fun hlt => hexp ((qrExpired_iff ht now).mpr hlt)
        omega
  · intro s now t ht hr hlt
    have hexp : qrExpired s now = true := (qrExpired_iff ht now).mpr hlt
    have he : qrRoute s now = qrElseBranch s now := by
      cases hq : s.qrCodeData with
      | none => exact qrRoute_else (.inl hq)
      | some qr => exact qrRoute_else (.inr hexp)
    rw [he, qrElseBranch_of_not_ready now hr, qrWaitingBranch_mutates hexp hr]
    exact ⟨rfl, rfl, rfl⟩

/-- C2 amended witness: part one at a fresh (valid) code, part two at an expired
one. -/
theorem C2_qr_expiry_amended_witness :
    (∃ t, (step initialState (Act.evQr "Q" 0)).lastQrTime = some t ∧
        100 - t ≤ 120000) ∧
    (qrRoute (step initialState (Act.evQr "Q" 0)) 120001).2.qrCodeData = none ∧
    (qrRoute (step initialState (Act.evQr "Q" 0)) 120001).2.lastQrTime = none ∧
    (qrRoute (step initialState (Act.evQr "Q" 0)) 120001).2.pendingTimers
      = (step initialState (Act.evQr "Q" 0)).pendingTimers ++ [120001 + 3000] := by
  refine ⟨C2_qr_expiry_amended.1 (step initialState (Act.evQr "Q" 0)) 100 "Q"
    (Reachable.next initialState (Act.evQr "Q" 0) Reachable.init) rfl, ?_⟩
  exact C2_qr_expiry_amended.2 (step initialState (Act.evQr "Q" 0)) 120001 0
    (by decide) (by decide) (by decide)

/-- C8: a `qr` event delivering code X, followed immediately (same instant) by
`GET /api/qr`, returns exactly X, with expiry instant `issuedAt + 120000` ms and
a success envelope. -/
theorem C8_qr_roundtrip (s : ServerState) (x : String) (t : Nat) :
    (qrRoute (onQr s x t) t).1.2.getField "qrCode" = some (Json.jstr x) ∧
    (qrRoute (onQr s x t) t).1.2.getField "expiresAt"
      = some (Json.jnum ((t : Int) + 120000)) ∧
    (qrRoute (onQr s x t) t).1.2.getField "success" = some (Json.jbool true) := by
  have hexp : qrExpired (onQr s x t) t = false := by
    unfold qrExpired onQr
    simp
  have he := qrRoute_ok (show (onQr s x t).qrCodeData = some x from rfl) hexp
  rw [he]
  exact ⟨rfl, rfl, rfl⟩

/-- C6: `POST /api/restart` immediately clears the ready flag, both pairing
fields and the launch flag (Uninitialized), leaves no client handle live
(the previous handle is destroyed before any new one exists), schedules the
relaunch timer 5s out, and when that timer fires the launch flag is set
(Launching) with exactly one new client start; moreover in every reachable
state at most one client handle is live. -/
theorem C6_restart_resets (s : ServerState) (now : Nat) (h : Reachable s) :
    (restartRoute s now).2.isReady = false ∧
    (restartRoute s now).2.qrCodeData = none ∧
    (restartRoute s now).2.lastQrTime = none ∧
    (restartRoute s now).2.initializationInProgress = false ∧
    (restartRoute s now).2.pendingTimers = s.pendingTimers ++ [now + 5000] ∧
    (restartRoute s now).2.liveClients = [] ∧
    (step (restartRoute s now).2 Act.fireTimer).initializationInProgress = true ∧
    (step (restartRoute s now).2 Act.fireTimer).launches = s.launches + 1 ∧
    (∀ s', Reachable s' → s'.liveClients.length ≤ 1) := by
  obtain ⟨c, l, hp⟩ := append_singleton_cons s.pendingTimers (now + 5000)
  have hp1 : (restartRoute s now).2.pendingTimers = c :: l := hp
  have hfire : step (restartRoute s now).2 Act.fireTimer
      = initializeWhatsApp { (restartRoute s now).2 with pendingTimers := l } :=
    fireNextTimer_of_cons hp1
  have hflag0 : ({ (restartRoute s now).2 with
      pendingTimers := l }).initializationInProgress = false := rfl
  have hlaunch : (restartRoute s now).2.launches = s.launches := by
    simp only [restartRoute, destroyCurrentClient_eq]
  refine ⟨rfl, rfl, rfl, rfl, rfl,
    restartRoute_liveClients (goodClients_invariant h) now, ?_, ?_,
    fun s' h' => liveClients_le_one h'⟩
  · rw [hfire]
    exact initializeWhatsApp_flag_true hflag0
  · rw [hfire, initializeWhatsApp_launches hflag0]
    show (restartRoute s now).2.launches + 1 = s.launches + 1
    rw [hlaunch]

/-- C6 witness: restarting right after the first launch. -/
theorem C6_restart_resets_witness :
    (restartRoute (step initialState Act.callInit) 100).2.liveClients = [] ∧
    (step (restartRoute (step initialState Act.callInit) 100).2
        Act.fireTimer).initializationInProgress = true ∧
    (step (restartRoute (step initialState Act.callInit) 100).2
        Act.fireTimer).launches = 2 := by
  have h := C6_restart_resets (step initialState Act.callInit) 100
    (Reachable.next initialState Act.callInit Reachable.init)
  exact ⟨h.2.2.2.2.2.1, h.2.2.2.2.2.2.1, h.2.2.2.2.2.2.2.1⟩

/-- C7 counterexample: from the initial state, two restarts at t=0 and t=500
leave two pending relaunch timers; the first fires and launches, a `qr` event
then clears the in-flight flag, and the second firing launches again: the pair
of scheduled relaunch timers yields two client launches, refuting the claim. -/
theorem C7_restart_dedup_counterexample : ¬ claim_C7_statement := by
  intro hc
  have h2 := hc initialState 0 500 [Act.evQr "q" 5200] Reachable.init (by decide)
    (by decide)
  exact absurd h2 (by decide)

/-- C7 amended: after two restarts within 1s of each other, the first pending
relaunch timer firing performs exactly one client launch, and the second firing
(the launch still being in flight) only pops its timer and changes nothing
else; a client event arriving between the two firings can clear the flag and
let the second firing launch again. -/
theorem C7_restart_dedup_amended (s : ServerState) (t1 t2 : Nat)
    (hb : t2 ≤ t1 + 1000) :
    (step (run s [Act.postRestart t1, Act.postRestart t2]) Act.fireTimer).launches
      = (run s [Act.postRestart t1, Act.postRestart t2]).launches + 1 ∧
    step (step (run s [Act.postRestart t1, Act.postRestart t2]) Act.fireTimer)
        Act.fireTimer
      = { step (run s [Act.postRestart t1, Act.postRestart t2]) Act.fireTimer with
            pendingTimers :=
              (step (run s [Act.postRestart t1, Act.postRestart t2])
                  Act.fireTimer).pendingTimers.tail } := by
  obtain ⟨c1, l1, hp1⟩ := append_singleton_cons s.pendingTimers (t1 + 5000)
  have hp2 : (run s [Act.postRestart t1, Act.postRestart t2]).pendingTimers
      = c1 :: (l1 ++ [t2 + 5000]) := by
    show (s.pendingTimers ++ [t1 + 5000]) ++ [t2 + 5000] = _
    rw [hp1]
    rfl
  have hfire1 : step (run s [Act.postRestart t1, Act.postRestart t2]) Act.fireTimer
      = initializeWhatsApp { run s [Act.postRestart t1, Act.postRestart t2] with
          pendingTimers := l1 ++ [t2 + 5000] } :=
    fireNextTimer_of_cons hp2
  have hflag0 : ({ run s [Act.postRestart t1, Act.postRestart t2] with
      pendingTimers := l1 ++ [t2 + 5000] }).initializationInProgress = false := rfl
  constructor
  · rw [hfire1]
    exact initializeWhatsApp_launches hflag0
  · obtain ⟨c2, l2, hq2⟩ := append_singleton_cons l1 (t2 + 5000)
    have hp3 : (step (run s [Act.postRestart t1, Act.postRestart t2])
        Act.fireTimer).pendingTimers = c2 :: l2 := by
      rw [hfire1, initializeWhatsApp_timers]
      exact hq2
    have hfl : (step (run s [Act.postRestart t1, Act.postRestart t2])
        Act.fireTimer).initializationInProgress = true := by
      rw [hfire1]
      exact initializeWhatsApp_flag_true hflag0
    have hfire2 : step (step (run s [Act.postRestart t1, Act.postRestart t2])
          Act.fireTimer) Act.fireTimer
        = initializeWhatsApp { step (run s [Act.postRestart t1, Act.postRestart t2])
            Act.fireTimer with pendingTimers := l2 } :=
      fireNextTimer_of_cons hp3
    have hnoop := @initializeWhatsApp_of_flag
      { step (run s [Act.postRestart t1, Act.postRestart t2]) Act.fireTimer with
          pendingTimers := l2 } hfl
    rw [hfire2, hnoop, hp3]
    rfl

/-- C7 amended witness at the initial state, restarts at 0 and 500. -/
theorem C7_restart_dedup_amended_witness :
    (step (run initialState [Act.postRestart 0, Act.postRestart 500])
        Act.fireTimer).launches
      = (run initialState [Act.postRestart 0, Act.postRestart 500]).launches + 1 :=
  (C7_restart_dedup_amended initialState 0 500 (by decide)).1

/-- C5: when ready with both fields present and the underlying send not settling
within 30s, the race rejects at 30000 ms: the caller gets a 500 `SendTimeout`
failure at the 30s bound and no state field (in particular `isReady`) changes. -/
theorem C5_send_timeout (s : ServerState) (number message : Option String)
    (o : SendOutcome) (now : Nat) (hready : s.isReady = true)
    (hn : jsFalsyStr number = false) (hm : jsFalsyStr message = false)
    (hd : 30000 < o.delay) :
    (sendMessageRoute s number message o now).status = 500 ∧
    (sendMessageRoute s number message o now).body.getField "success"
      = some (Json.jbool false) ∧
    (sendMessageRoute s number message o now).body.getField "error"
      = some (Json.jstr "Timeout sending message") ∧
    (sendMessageRoute s number message o now).body.getField "message"
      = some (Json.jstr "⏰ Timeout enviando mensaje, intenta de nuevo") ∧
    (sendMessageRoute s number message o now).respTimeMs = 30000 ∧
    (sendMessageRoute s number message o now).state = s := by
  have hrace : raceOutcome o = Except.error "Timeout sending message" := by
    cases o with
    | ok d i =>
      simp only [SendOutcome.delay] at hd
      simp [raceOutcome, Nat.not_lt.mpr (Nat.le_of_lt hd)]
    | err d e =>
      simp only [SendOutcome.delay] at hd
      simp [raceOutcome, Nat.not_lt.mpr (Nat.le_of_lt hd)]
  have hmin : min o.delay 30000 = 30000 := Nat.min_eq_right (Nat.le_of_lt hd)
  unfold sendMessageRoute
  rw [if_neg (by simp [hready]), if_neg (by simp [hn, hm]), hrace]
  exact ⟨rfl, rfl, rfl, rfl, hmin, rfl⟩

/-- C5 witness: a send that would settle at 31s times out at 30s. -/
theorem C5_send_timeout_witness :
    (sendMessageRoute { initialState with isReady := true } (some "5491234567890")
        (some "hi") (SendOutcome.ok 31000 "id1") 0).status = 500 ∧
    (sendMessageRoute { initialState with isReady := true } (some "5491234567890")
        (some "hi") (SendOutcome.ok 31000 "id1") 0).respTimeMs = 30000 ∧
    (sendMessageRoute { initialState with isReady := true } (some "5491234567890")
        (some "hi") (SendOutcome.ok 31000 "id1") 0).state
      = { initialState with isReady := true } := by
  have h := C5_send_timeout { initialState with isReady := true }
    (some "5491234567890") (some "hi") (SendOutcome.ok 31000 "id1") 0 rfl
    (by decide) (by decide) (by decide)
  exact ⟨h.1, h.2.2.2.2.1, h.2.2.2.2.2⟩

/-- C9 counterexample: the `/health` body carries neither `success` nor
`message` and `GET /` carries no `success`, refuting "every JSON body carries
`success` and `message`"; and the 503 not-ready send response is an error
response (`success = false`) that carries no `error` field, refuting "every
error response additionally carries an `error` field". -/
theorem C9_envelope_counterexample :
    (healthRoute initialState 0 0 Json.jnull).2.getField "success" = none ∧
    (healthRoute initialState 0 0 Json.jnull).2.getField "message" = none ∧
    (rootRoute initialState 0).2.getField "success" = none ∧
    (statusRoute initialState 0 0 Json.jnull).2.getField "message" = none ∧
    (sendMessageRoute initialState (some "5491234567890") (some "hi")
        (SendOutcome.ok 0 "id") 0).status = 503 ∧
    (sendMessageRoute initialState (some "5491234567890") (some "hi")
        (SendOutcome.ok 0 "id") 0).body.getField "success"
      = some (Json.jbool false) ∧
    (sendMessageRoute initialState (some "5491234567890") (some "hi")
        (SendOutcome.ok 0 "id") 0).body.getField "error" = none :=
  ⟨rfl, rfl, rfl, rfl, rfl, rfl, rfl⟩

/-- C9 amended: the `/api/qr`, `/api/send-message`, `/api/number-info`,
`/api/restart` and 404 bodies all carry a boolean `success` and a string
`message`; `/health` carries neither, `GET /` only `message`, `/api/status`
only `success`; `/api/chats` always carries `success` but its 200 body carries
no `message`; and the catch-branch 500 responses carry `error` with the raw
failure text (the 503/400 failure responses do not). -/
theorem C9_envelope_amended :
    (∀ (s : ServerState) (now up : Nat) (mem : Json),
        (healthRoute s now up mem).2.getField "success" = none ∧
        (healthRoute s now up mem).2.getField "message" = none) ∧
    (∀ (s : ServerState) (up : Nat),
        (rootRoute s up).2.getField "success" = none ∧
        (rootRoute s up).2.getField "message"
          = some (Json.jstr "🚀 WhatsApp API funcionando en Render!")) ∧
    (∀ (s : ServerState) (now up : Nat) (mem : Json),
        (statusRoute s now up mem).2.getField "success" = some (Json.jbool true) ∧
        (statusRoute s now up mem).2.getField "message" = none) ∧
    (∀ (s : ServerState) (now : Nat), ∃ b msg,
        (qrRoute s now).1.2.getField "success" = some (Json.jbool b) ∧
        (qrRoute s now).1.2.getField "message" = some (Json.jstr msg)) ∧
    (∀ (s : ServerState) (n m : Option String) (o : SendOutcome) (now : Nat),
        ∃ b msg, (sendMessageRoute s n m o now).body.getField "success"
            = some (Json.jbool b) ∧
          (sendMessageRoute s n m o now).body.getField "message"
            = some (Json.jstr msg)) ∧
    (∀ (s : ServerState) (num : String) (lk : Except String (Option Json)),
        ∃ b msg, (numberInfoRoute s num lk).2.getField "success"
            = some (Json.jbool b) ∧
          (numberInfoRoute s num lk).2.getField "message" = some (Json.jstr msg)) ∧
    (∀ (s : ServerState) (lp : Option (Option Int))
        (cr : Except String (List Chat)),
        ∃ b, (chatsRoute s lp cr).2.getField "success" = some (Json.jbool b)) ∧
    (∀ (s : ServerState) (lp : Option (Option Int)) (cs : List Chat),
        s.isReady = true →
        (chatsRoute s lp (Except.ok cs)).2.getField "message" = none) ∧
    (∀ (s : ServerState) (now : Nat),
        (restartRoute s now).1.2.getField "success" = some (Json.jbool true) ∧
        (restartRoute s now).1.2.getField "message"
          = some (Json.jstr "🔄 Cliente reiniciado")) ∧
    (notFoundRoute.2.getField "success" = some (Json.jbool false) ∧
        notFoundRoute.2.getField "message"
          = some (Json.jstr "🔍 Endpoint no encontrado")) ∧
    (∀ (s : ServerState) (n m : Option String) (o : SendOutcome) (now : Nat)
        (e : String), s.isReady = true → jsFalsyStr n = false →
        jsFalsyStr m = false → raceOutcome o = Except.error e →
        (sendMessageRoute s n m o now).body.getField "error"
          = some (Json.jstr e)) ∧
    (∀ (s : ServerState) (num e : String), s.isReady = true →
        (numberInfoRoute s num (Except.error e)).2.getField "error"
          = some (Json.jstr e)) ∧
    (∀ (s : ServerState) (lp : Option (Option Int)) (e : String),
        s.isReady = true →
        (chatsRoute s lp (Except.error e)).2.getField "error"
          = some (Json.jstr e)) ∧
    (∀ (s : ServerState) (n m : Option String) (o : SendOutcome) (now : Nat),
        (sendMessageRoute s n m o now).status ≠ 500 →
        (sendMessageRoute s n m o now).body.getField "error" = none) ∧
    (∀ (s : ServerState) (num : String) (lk : Except String (Option Json)),
        (numberInfoRoute s num lk).1 ≠ 500 →
        (numberInfoRoute s num lk).2.getField "error" = none) ∧
    (∀ (s : ServerState) (lp : Option (Option Int))
        (cr : Except String (List Chat)),
        (chatsRoute s lp cr).1 ≠ 500 →
        (chatsRoute s lp cr).2.getField "error" = none) ∧
    (∀ (s : ServerState) (now : Nat),
        (qrRoute s now).1.2.getField "error" = none ∧
        (restartRoute s now).1.2.getField "error" = none) ∧
    (notFoundRoute.2.getField "error" = none ∧
      ∀ (s : ServerState) (now up : Nat) (mem : Json),
        (healthRoute s now up mem).2.getField "error" = none ∧
        (rootRoute s up).2.getField "error" = none ∧
        (statusRoute s now up mem).2.getField "error" = none) := by
  refine ⟨fun s now up mem => ⟨rfl, rfl⟩, fun s up => ⟨rfl, rfl⟩,
    fun s now up mem => ⟨rfl, rfl⟩, ?_, send_body_envelope, ?_, ?_, ?_,
    fun s now => ⟨rfl, rfl⟩, ⟨rfl, rfl⟩, ?_, ?_, ?_, ?_, ?_, ?_,
    fun s now => ⟨qrRoute_no_error s now, rfl⟩,
    ⟨rfl, fun s now up mem => ⟨rfl, rfl, rfl⟩⟩⟩
  · intro s now
    cases hq : s.qrCodeData with
    | none =>
      rw [qrRoute_else (.inl hq)]
      unfold qrElseBranch
      by_cases h : s.isReady = true
      · rw [if_pos h]; exact ⟨true, _, rfl, rfl⟩
      · rw [if_neg h]; exact ⟨false, _, rfl, rfl⟩
    | some qr =>
      by_cases hexp : qrExpired s now = true
      · rw [qrRoute_else (.inr hexp)]
        unfold qrElseBranch
        by_cases h : s.isReady = true
        · rw [if_pos h]; exact ⟨true, _, rfl, rfl⟩
        · rw [if_neg h]; exact ⟨false, _, rfl, rfl⟩
      · have hexp0 : qrExpired s now = false := by
          cases hb : qrExpired s now
          · rfl
          · exact absurd hb hexp
        rw [qrRoute_ok hq hexp0]
        exact ⟨true, _, rfl, rfl⟩
  · intro s num lk
    unfold numberInfoRoute
    by_cases h1 : (!s.isReady) = true
    · rw [if_pos h1]; exact ⟨false, _, rfl, rfl⟩
    · rw [if_neg h1]
      cases lk with
      | ok d => exact ⟨true, _, rfl, rfl⟩
      | error e => exact ⟨false, _, rfl, rfl⟩
  · intro s lp cr
    unfold chatsRoute
    by_cases h1 : (!s.isReady) = true
    · rw [if_pos h1]; exact ⟨false, rfl⟩
    · rw [if_neg h1]
      cases cr with
      | ok cs => exact ⟨true, rfl⟩
      | error e => exact ⟨false, rfl⟩
  · intro s lp cs hready
    unfold chatsRoute
    rw [if_neg (by simp [hready])]
    rfl
  · intro s n m o now e hready hn hm hrace
    unfold sendMessageRoute
    rw [if_neg (by simp [hready]), if_neg (by simp [hn, hm]), hrace]
    rfl
  · intro s num e hready
    unfold numberInfoRoute
    rw [if_neg (by simp [hready])]
    rfl
  · intro s lp e hready
    unfold chatsRoute
    rw [if_neg (by simp [hready])]
    rfl
  · intro s n m o now hst
    unfold sendMessageRoute at hst ⊢
    by_cases h1 : (!s.isReady) = true
    · rw [if_pos h1]
      rfl
    · rw [if_neg h1] at hst ⊢
      by_cases h2 : (jsFalsyStr n || jsFalsyStr m) = true
      · rw [if_pos h2]
        rfl
      · rw [if_neg h2] at hst ⊢
        cases hro : raceOutcome o with
        | ok i => rfl
        | error e =>
          rw [hro] at hst
          exact absurd rfl hst
  · intro s num lk hst
    unfold numberInfoRoute at hst ⊢
    by_cases h1 : (!s.isReady) = true
    · rw [if_pos h1]
      rfl
    · rw [if_neg h1] at hst ⊢
      cases lk with
      | ok d => rfl
      | error e => exact absurd rfl hst
  · intro s lp cr hst
    unfold chatsRoute at hst ⊢
    by_cases h1 : (!s.isReady) = true
    · rw [if_pos h1]
      rfl
    · rw [if_neg h1] at hst ⊢
      cases cr with
      | ok cs => rfl
      | error e => exact absurd rfl hst

/-- C9 amended witness: the error-carrying conclusions applied at concrete
erroring calls, and a no-error conclusion applied at a concrete 503 call (the
universally quantified conclusions need no instances). -/
theorem C9_envelope_amended_witness :
    (sendMessageRoute { initialState with isReady := true } (some "5491234567890")
        (some "hi") (SendOutcome.err 5 "boom") 0).body.getField "error"
      = some (Json.jstr "boom") ∧
    (numberInfoRoute { initialState with isReady := true } "549"
        (Except.error "nope")).2.getField "error" = some (Json.jstr "nope") ∧
    (chatsRoute { initialState with isReady := true } none
        (Except.error "fail")).2.getField "error" = some (Json.jstr "fail") ∧
    (sendMessageRoute initialState (some "5491234567890") (some "hi")
        (SendOutcome.ok 0 "id") 0).body.getField "error" = none := by
  refine ⟨?_, ?_, ?_, ?_⟩
  · exact C9_envelope_amended.2.2.2.2.2.2.2.2.2.2.1
      { initialState with isReady := true } (some "5491234567890") (some "hi")
      (SendOutcome.err 5 "boom") 0 "boom" rfl (by decide) (by decide) rfl
  · exact C9_envelope_amended.2.2.2.2.2.2.2.2.2.2.2.1
      { initialState with isReady := true } "549" "nope" rfl
  · exact C9_envelope_amended.2.2.2.2.2.2.2.2.2.2.2.2.1
      { initialState with isReady := true } none "fail" rfl
  · exact C9_envelope_amended.2.2.2.2.2.2.2.2.2.2.2.2.2.1
      initialState (some "5491234567890") (some "hi") (SendOutcome.ok 0 "id") 0
      (by decide)

/-- C10 counterexample: with `limit=-5` and ten chats, `parseInt` gives L = -5
and `chats.slice(0, -5)` returns the first five chats (JavaScript negative
slicing), not the first `min(L, total) = min(-5, 10)` (that is, zero) chats. -/
theorem C10_chats_counterexample :
    (chatsRoute { initialState with isReady := true } (some (some (-5)))
        (Except.ok tenChats)).2.getField "showing" = some (Json.jnum 5) ∧
    tenChats.length = 10 ∧
    (min (-5 : Int) (10 : Int)).toNat = 0 ∧
    (chatList (some (some (-5))) tenChats).length = 5 := by
  refine ⟨?_, by decide, by decide, by decide⟩
  rfl

/-- C10 amended: for a ready session, `/api/chats` answers 200 with
`success = true`, its `chats` list being the first `expectedChatCount` chat
summaries (`min(L, total)` for non-negative L, JavaScript negative slicing
`max(total + L, 0)` for negative L, 20 when absent, 0 when `parseInt` is NaN),
`showing` that count and `total` the full count. -/
theorem C10_chats_list (s : ServerState) (lp : Option (Option Int))
    (cs : List Chat) (h : s.isReady = true) :
    (chatsRoute s lp (Except.ok cs)).1 = 200 ∧
    (chatsRoute s lp (Except.ok cs)).2.getField "success"
      = some (Json.jbool true) ∧
    (chatsRoute s lp (Except.ok cs)).2.getField "chats"
      = some (Json.jarr ((cs.take (expectedChatCount lp cs.length)).map
          chatSummary)) ∧
    (chatsRoute s lp (Except.ok cs)).2.getField "total"
      = some (Json.jnum cs.length) ∧
    (chatsRoute s lp (Except.ok cs)).2.getField "showing"
      = some (Json.jnum (expectedChatCount lp cs.length)) := by
  have hcl : chatList lp cs
      = (cs.take (expectedChatCount lp cs.length)).map chatSummary := by
    unfold chatList jsSliceTo
    rw [jsSliceEnd_eq]
  have hlen : (chatList lp cs).length = expectedChatCount lp cs.length := by
    rw [hcl, List.length_map, List.length_take]
    exact Nat.min_eq_left (expectedChatCount_le lp cs.length)
  unfold chatsRoute
  rw [if_neg (by simp [h])]
  refine ⟨rfl, rfl, ?_, rfl, ?_⟩
  · show some (Json.jarr (chatList lp cs)) = _
    rw [hcl]
  · show some (Json.jnum ((chatList lp cs).length : Int)) = _
    rw [hlen]

/-- C10 amended witness at the negative-limit input. -/
theorem C10_chats_list_witness :
    (chatsRoute { initialState with isReady := true } (some (some (-5)))
        (Except.ok tenChats)).2.getField "total" = some (Json.jnum 10) ∧
    (chatsRoute { initialState with isReady := true } (some (some (-5)))
        (Except.ok tenChats)).2.getField "showing"
      = some (Json.jnum (expectedChatCount (some (some (-5)))
          tenChats.length)) := by
  have h := C10_chats_list { initialState with isReady := true }
    (some (some (-5))) tenChats rfl
  exact ⟨h.2.2.2.1, h.2.2.2.2⟩

end WpApi
